import Mathlib

/-!
Shallow embedding of the ADead-BIB compute runtime core
(src/runtime/core/{types.h, memory.h, memory.c, runtime.h, runtime.c}).

Machine integers (`usize`, `u64`, `u32`) are modelled as `Nat` with explicit
reduction modulo `2^64` (resp. `2^32`) at every operation where the C code can
overflow.  Pointers are modelled abstractly as pairs `(allocation id, byte
offset)`; the null pointer is `Option.none`.  `malloc` is modelled by a heap of
live allocation ids together with an oracle `Nat → Bool` deciding, per call
number, whether the allocation succeeds (C gives no other observable behaviour
of `malloc` at this level).  Floating-point kernel bodies (`cpu_matmul` etc.)
are not modelled numerically; the dispatch layer records which backend kernel
entry is invoked and with which integer size arguments, which is what the
claims below are about.
-/

/-- 2^64, the modulus of `usize`/`u64` arithmetic. -/
def U64MOD : Nat := 2 ^ 64

/-- 2^32, the modulus of `u32` arithmetic. -/
def U32MOD : Nat := 2 ^ 32

/-- `ADeadError` from types.h. -/
inductive ADeadError where
  | ok
  | errInit
  | errMemory
  | errInvalidOp
  | errBackend
  | errVulkan
  | errCuda
  | errShader
  | errOutOfMemory
  | errInvalidParam
deriving DecidableEq, Repr

/-- Backend identities from types.h; the C enum is an integer, so we keep the
numeric values (CPU = 0, CUDA = 1, VULKAN = 2, AUTO = 255; any other value hits
the `default` branch of the selection switch). -/
def ADEAD_BACKEND_CPU : Nat := 0
def ADEAD_BACKEND_CUDA : Nat := 1
def ADEAD_BACKEND_VULKAN : Nat := 2
def ADEAD_BACKEND_AUTO : Nat := 255

/-- `ADEAD_ALIGNMENT` from types.h. -/
def ADEAD_ALIGNMENT : Nat := 16

/-- `ADEAD_MAX_DIMS` from types.h. -/
def ADEAD_MAX_DIMS : Nat := 8

/-- `adead_dtype_size` from types.h (dtype is an integer enum; unknown values
return 0). -/
def adead_dtype_size (dtype : Nat) : Nat :=
  if dtype = 0 then 4        -- F32
  else if dtype = 1 then 8   -- F64
  else if dtype = 2 then 4   -- I32
  else if dtype = 3 then 8   -- I64
  else if dtype = 4 then 1   -- U8
  else if dtype = 5 then 1   -- I8
  else if dtype = 6 then 2   -- F16
  else if dtype = 7 then 2   -- BF16
  else 0

/-- An abstract pointer: (allocation id, byte offset inside the allocation).
The null pointer is represented by `none` at use sites (`Option Ptr`). -/
abbrev Ptr := Nat × Nat

/-- Abstract heap: a counter of `malloc` calls made so far (used to index the
success oracle and to mint fresh allocation ids) and the list of live
allocation ids. -/
structure Heap where
  nextId : Nat
  live : List Nat
deriving DecidableEq, Repr

/-- One `malloc` call: the oracle decides (by call number) whether it succeeds.
On success a fresh allocation id becomes live. -/
def hmalloc (oracle : Nat → Bool) (h : Heap) : Option Nat × Heap :=
  if oracle h.nextId then
    (some h.nextId, ⟨h.nextId + 1, h.nextId :: h.live⟩)
  else
    (none, ⟨h.nextId + 1, h.live⟩)

/-- One `free` call on allocation id `i`. -/
def hfree (h : Heap) (i : Nat) : Heap :=
  ⟨h.nextId, h.live.erase i⟩

/- ============================================================
   Arena allocator (memory.h / memory.c)
   ============================================================ -/

/-- `ADeadArena` from memory.h.  `base = none` models a null base pointer. -/
structure ADeadArena where
  base : Option Nat
  offset : Nat
  capacity : Nat
  peak : Nat
deriving DecidableEq, Repr

/-- `adead_align_up` from memory.h:
`(size + alignment - 1) & ~(alignment - 1)` in `usize` arithmetic.
`alignment - 1` is the wrapped subtraction `(alignment + 2^64 - 1) % 2^64`
and `~x` is `(2^64 - 1) ^^^ x`. -/
def adead_align_up (size alignment : Nat) : Nat :=
  ((size + alignment + (U64MOD - 1)) % U64MOD) &&&
    ((U64MOD - 1) ^^^ ((alignment + (U64MOD - 1)) % U64MOD))

/-- `adead_arena_init` from memory.c.  The `!arena` null check is outside this
by-value model; `capacity == 0` returns `ADEAD_ERROR_INVALID_PARAM` leaving the
arena unchanged; on `malloc` failure only `base` has been assigned (to null). -/
def adead_arena_init (oracle : Nat → Bool) (arena : ADeadArena) (capacity : Nat)
    (h : Heap) : ADeadError × ADeadArena × Heap :=
  if capacity = 0 then
    (.errInvalidParam, arena, h)
  else
    match hmalloc oracle h with
    | (none, h') => (.errOutOfMemory, { arena with base := none }, h')
    | (some id, h') => (.ok, ⟨some id, 0, capacity, 0⟩, h')

/-- `adead_arena_destroy` from memory.c. -/
def adead_arena_destroy (arena : ADeadArena) (h : Heap) : ADeadArena × Heap :=
  match arena.base with
  | some id => (⟨none, 0, 0, 0⟩, hfree h id)
  | none => (arena, h)

/-- `adead_arena_alloc` from memory.c.  Returns the pointer (or null) and the
updated arena.  The returned pointer `(b, aligned_offset)` stands for the C
address `base + aligned_offset`.  The capacity check `aligned_offset + size >
capacity` is `usize` addition, hence the `% U64MOD`. -/
def adead_arena_alloc (arena : ADeadArena) (size alignment : Nat) :
    Option Ptr × ADeadArena :=
  match arena.base with
  | none => (none, arena)
  | some b =>
    if size = 0 then
      (none, arena)
    else
      let aligned_offset := adead_align_up arena.offset alignment
      if arena.capacity < (aligned_offset + size) % U64MOD then
        (none, arena)
      else
        let newOffset := (aligned_offset + size) % U64MOD
        (some (b, aligned_offset),
         { arena with
             offset := newOffset,
             peak := if arena.peak < newOffset then newOffset else arena.peak })

/-- `adead_arena_reset` from memory.c. -/
def adead_arena_reset (arena : ADeadArena) : ADeadArena :=
  { arena with offset := 0 }

/- ============================================================
   Pool allocator (memory.h / memory.c)
   ============================================================ -/

/-- `ADeadPool` from memory.h.  `base = none` models a null base pointer. The
intrusive free list is modelled as the list of block byte-offsets from `base`,
head first (the `next` links live inside the free blocks in C; as long as no
code writes into a free block, the link structure is exactly this list). -/
structure ADeadPool where
  base : Option Nat
  free_list : List Nat
  block_size : Nat
  capacity : Nat
  used : Nat
deriving DecidableEq, Repr

/-- The free-list construction loop of `adead_pool_init` / `adead_pool_reset`:
iterate blocks in index order `0 .. num_blocks - 1`, prepending block
`i * block_size` to the list, so the final head is the highest-index block. -/
def buildFreeList (block_size num_blocks : Nat) : List Nat :=
  (List.range num_blocks).foldl (fun acc i => i * block_size :: acc) []

/-- `adead_pool_init` from memory.c.  `sizeof(ADeadPoolBlock)` is one pointer,
8 bytes on the 64-bit model.  The `!pool` null check is outside this by-value
model. -/
def adead_pool_init (oracle : Nat → Bool) (pool : ADeadPool)
    (block_size num_blocks : Nat) (h : Heap) : ADeadError × ADeadPool × Heap :=
  if block_size = 0 ∨ num_blocks = 0 then
    (.errInvalidParam, pool, h)
  else
    let bs0 := if block_size < 8 then 8 else block_size
    let bs := adead_align_up bs0 ADEAD_ALIGNMENT
    match hmalloc oracle h with
    | (none, h') => (.errOutOfMemory, { pool with base := none }, h')
    | (some id, h') =>
      (.ok,
       { base := some id,
         free_list := buildFreeList bs num_blocks,
         block_size := bs,
         capacity := num_blocks,
         used := 0 },
       h')

/-- `adead_pool_destroy` from memory.c. -/
def adead_pool_destroy (pool : ADeadPool) (h : Heap) : ADeadPool × Heap :=
  match pool.base with
  | some id => (⟨none, [], 0, 0, 0⟩, hfree h id)
  | none => (pool, h)

/-- `adead_pool_alloc` from memory.c: pops the free-list head; empty list (or
null pool) returns null.  `used++` is `usize` arithmetic. -/
def adead_pool_alloc (pool : ADeadPool) : Option Ptr × ADeadPool :=
  match pool.base, pool.free_list with
  | some b, off :: rest =>
    (some (b, off),
     { pool with free_list := rest, used := (pool.used + 1) % U64MOD })
  | _, _ => (none, pool)

/-- `adead_pool_free` from memory.c: a null pointer, a null pool base, or a
pointer outside `[base, base + block_size * capacity)` is silently ignored
(a pointer into a different allocation is outside that range); otherwise the
block is prepended to the free list and `used--` (wrapping `usize`). -/
def adead_pool_free (pool : ADeadPool) (ptr : Option Ptr) : ADeadPool :=
  match ptr, pool.base with
  | some (aid, off), some b =>
    if aid = b ∧ off < (pool.block_size * pool.capacity) % U64MOD then
      { pool with
          free_list := off :: pool.free_list,
          used := (pool.used + (U64MOD - 1)) % U64MOD }
    else
      pool
  | _, _ => pool

/-- `adead_pool_reset` from memory.c. -/
def adead_pool_reset (pool : ADeadPool) : ADeadPool :=
  match pool.base with
  | none => pool
  | some _ =>
    { pool with free_list := buildFreeList pool.block_size pool.capacity, used := 0 }

/- ============================================================
   Memory manager (memory.h / memory.c)
   ============================================================ -/

/-- `ADeadMemoryManager` from memory.h.  `total_alloc`/`total_freed` are
`usize`, `alloc_count`/`free_count` are `u32`. -/
structure ADeadMemoryManager where
  scratch : ADeadArena
  tensor_pool : ADeadPool
  total_alloc : Nat
  total_freed : Nat
  alloc_count : Nat
  free_count : Nat
deriving DecidableEq, Repr

/-- The all-zero memory manager (`memset(mm, 0, sizeof *mm)`). -/
def zeroMM : ADeadMemoryManager :=
  ⟨⟨none, 0, 0, 0⟩, ⟨none, [], 0, 0, 0⟩, 0, 0, 0, 0⟩

/-- `adead_memory_init` from memory.c: zeroes the manager, initializes the
scratch arena, then the tensor pool with 256-byte blocks and `pool_size / 256`
blocks; on pool failure the scratch arena is destroyed before the error is
returned.  The `!mm` null check is outside this by-value model. -/
def adead_memory_init (oracle : Nat → Bool) (scratch_size pool_size : Nat)
    (h : Heap) : ADeadError × ADeadMemoryManager × Heap :=
  match adead_arena_init oracle zeroMM.scratch scratch_size h with
  | (.ok, ar, h1) =>
    match adead_pool_init oracle zeroMM.tensor_pool 256 (pool_size / 256) h1 with
    | (.ok, pl, h2) => (.ok, { zeroMM with scratch := ar, tensor_pool := pl }, h2)
    | (e2, pl, h2) =>
      let (ar2, h3) := adead_arena_destroy ar h2
      (e2, { zeroMM with scratch := ar2, tensor_pool := pl }, h3)
  | (e, ar, h1) => (e, { zeroMM with scratch := ar }, h1)

/-- `adead_memory_destroy` from memory.c. -/
def adead_memory_destroy (mm : ADeadMemoryManager) (h : Heap) :
    ADeadMemoryManager × Heap :=
  let (_, h1) := adead_arena_destroy mm.scratch h
  let (_, h2) := adead_pool_destroy mm.tensor_pool h1
  (zeroMM, h2)

/-- `adead_memory_scratch` from memory.c: delegates to the arena with the
global 16-byte alignment; on success accumulates the *requested* size into
`total_alloc` (`usize`) and bumps `alloc_count` (`u32`). -/
def adead_memory_scratch (mm : ADeadMemoryManager) (size : Nat) :
    Option Ptr × ADeadMemoryManager :=
  let (ptr, ar) := adead_arena_alloc mm.scratch size ADEAD_ALIGNMENT
  match ptr with
  | some p =>
    (some p,
     { mm with
         scratch := ar,
         total_alloc := (mm.total_alloc + size) % U64MOD,
         alloc_count := (mm.alloc_count + 1) % U32MOD })
  | none => (none, { mm with scratch := ar })

/-- `adead_memory_scratch_reset` from memory.c: adds the arena's current
`offset` to `total_freed`, bumps `free_count`, then resets the arena. -/
def adead_memory_scratch_reset (mm : ADeadMemoryManager) : ADeadMemoryManager :=
  { mm with
      total_freed := (mm.total_freed + mm.scratch.offset) % U64MOD,
      free_count := (mm.free_count + 1) % U32MOD,
      scratch := adead_arena_reset mm.scratch }

/- ============================================================
   Backend capability table and CPU backend (runtime.c)
   ============================================================ -/

/-- The backend capability tables that exist in runtime.c: only the static
`cpu_vtable`.  A runtime's `backend_vtable` field is `Option ADeadBackendVTable`
with `none` for the null pointer. -/
inductive ADeadBackendVTable where
  | cpuVtable
deriving DecidableEq, Repr

/-- The `.name` field of a capability table (`cpu_vtable.name = "CPU"`). -/
def vtableName : ADeadBackendVTable → String
  | .cpuVtable => "CPU"

/-- `CPUBackendCtx` from runtime.c: the CPU backend's private context
(both fields `usize`). -/
structure CPUBackendCtx where
  allocated : Nat
  peak : Nat
deriving DecidableEq, Repr

/-- `cpu_init` from runtime.c: one `malloc(sizeof(CPUBackendCtx))`; on success
the context is `{allocated := 0, peak := 0}` at a fresh allocation id. -/
def cpu_init (oracle : Nat → Bool) (h : Heap) :
    ADeadError × Option Nat × CPUBackendCtx × Heap :=
  match hmalloc oracle h with
  | (none, h') => (.errOutOfMemory, none, ⟨0, 0⟩, h')
  | (some id, h') => (.ok, some id, ⟨0, 0⟩, h')

/-- `cpu_alloc` from runtime.c: a plain `malloc`; on success the context's
`allocated` counter grows by `size` (`usize`) and `peak` follows. -/
def cpu_alloc (oracle : Nat → Bool) (c : CPUBackendCtx) (size : Nat)
    (h : Heap) : Option Ptr × CPUBackendCtx × Heap :=
  match hmalloc oracle h with
  | (none, h') => (none, c, h')
  | (some id, h') =>
    let alloc' := (c.allocated + size) % U64MOD
    (some (id, 0),
     ⟨alloc', if c.peak < alloc' then alloc' else c.peak⟩, h')

/-- `cpu_free` from runtime.c: a plain `free` (the context counters are not
decremented by the C code). -/
def cpu_free (c : CPUBackendCtx) (ptr : Option Ptr) (h : Heap) :
    CPUBackendCtx × Heap :=
  match ptr with
  | some (aid, _) => (c, hfree h aid)
  | none => (c, h)

/- ============================================================
   Runtime context (runtime.h / runtime.c)
   ============================================================ -/

/-- `ADeadRuntime` from runtime.h.  `backend_ctx` is the allocation id of the
backend's private context (null = `none`); `cpuCtx` carries the *contents* of
that allocation for the only existing backend.  `initialized` is a C `int`,
kept as `Nat` (the code only ever stores 0 or 1). -/
structure ADeadRuntime where
  memory : ADeadMemoryManager
  active_backend : Nat
  backend_vtable : Option ADeadBackendVTable
  backend_ctx : Option Nat
  cpuCtx : CPUBackendCtx
  flags : Nat
  initialized : Nat
deriving DecidableEq, Repr

/-- The all-zero runtime (`memset(rt, 0, sizeof *rt)`). -/
def zeroRuntime : ADeadRuntime :=
  ⟨zeroMM, 0, none, none, ⟨0, 0⟩, 0, 0⟩

/-- `adead_init` from runtime.c, on a non-null `rt` (the `!rt` guard returns
`ADEAD_ERROR_INVALID_PARAM`; passing the struct by value makes that case
unrepresentable here).  Zeroes the struct, initializes the memory manager
(64 MiB scratch, 16 MiB pool), selects the backend table (CPU/AUTO and the
unimplemented CUDA/VULKAN identities all install the CPU table with
`active_backend = CPU`; any other identity destroys the memory manager and
returns `ADEAD_ERROR_INVALID_PARAM`), then runs the backend `init` hook,
destroying the memory manager if it fails. -/
def adead_init (oracle : Nat → Bool) (backend : Nat) (h : Heap) :
    ADeadError × ADeadRuntime × Heap :=
  let rt0 := zeroRuntime
  match adead_memory_init oracle (64 * 1024 * 1024) (16 * 1024 * 1024) h with
  | (.ok, mm, h1) =>
    if backend = ADEAD_BACKEND_CPU ∨ backend = ADEAD_BACKEND_AUTO ∨
       backend = ADEAD_BACKEND_CUDA ∨ backend = ADEAD_BACKEND_VULKAN then
      let rt1 := { rt0 with
                     memory := mm,
                     backend_vtable := some .cpuVtable,
                     active_backend := ADEAD_BACKEND_CPU }
      match cpu_init oracle h1 with
      | (.ok, ctxId, cctx, h2) =>
        (.ok, { rt1 with backend_ctx := ctxId, cpuCtx := cctx, initialized := 1 }, h2)
      | (e, _, _, h2) =>
        let (mm2, h3) := adead_memory_destroy mm h2
        (e, { rt1 with memory := mm2 }, h3)
    else
      let (mm2, h2) := adead_memory_destroy mm h1
      (.errInvalidParam, { rt0 with memory := mm2 }, h2)
  | (e, mm, h1) => (e, { rt0 with memory := mm }, h1)

/-- `adead_shutdown` from runtime.c.  Result: the runtime after the call
(`none` stays `none` for a null pointer), the heap, whether the backend
`shutdown` hook ran, and whether the memory manager was destroyed. -/
def adead_shutdown (rt : Option ADeadRuntime) (h : Heap) :
    Option ADeadRuntime × Heap × Bool × Bool :=
  match rt with
  | none => (none, h, false, false)
  | some r =>
    if r.initialized = 0 then
      (some r, h, false, false)
    else
      let (hookRan, h1) :=
        match r.backend_vtable, r.backend_ctx with
        | some _, some cid => (true, hfree h cid)
        | _, _ => (false, h)
      let (_, h2) := adead_memory_destroy r.memory h1
      (some zeroRuntime, h2, hookRan, true)

/-- `adead_get_backend` from runtime.c. -/
def adead_get_backend (rt : Option ADeadRuntime) : Nat :=
  match rt with
  | some r => r.active_backend
  | none => ADEAD_BACKEND_CPU

/-- `adead_get_backend_name` from runtime.c. -/
def adead_get_backend_name (rt : Option ADeadRuntime) : String :=
  match rt with
  | some r =>
    match r.backend_vtable with
    | some vt => vtableName vt
    | none => "Unknown"
  | none => "Unknown"

/- ============================================================
   Tensors (types.h / runtime.c)
   ============================================================ -/

/-- `ADeadTensor` from types.h: `shape` and `strides` are fixed 8-slot `u64`
arrays, modelled as lists of length 8. -/
structure ADeadTensor where
  data : Option Ptr
  shape : List Nat
  strides : List Nat
  ndim : Nat
  dtype : Nat
  device : Nat
  size_bytes : Nat
deriving DecidableEq, Repr

/-- The all-zero tensor descriptor (`memset(tensor, 0, sizeof *tensor)`). -/
def zeroTensor : ADeadTensor :=
  ⟨none, List.replicate 8 0, List.replicate 8 0, 0, 0, 0, 0⟩

/-- `adead_tensor_numel` from types.h: product of the first `ndim` shape
entries in `u64` arithmetic. -/
def adead_tensor_numel (t : ADeadTensor) : Nat :=
  (List.range t.ndim).foldl (fun n i => (n * t.shape.getD i 0) % U64MOD) 1

/-- The stride recurrence of `adead_tensor_create`, unrolled from the
descending C loop: `strideFrom shp elem i k` is `strides[i]` when
`k = ndim - 1 - i`, i.e. `elem_size` at the last dimension and
`strides[i+1] * shape[i+1]` (`u64` product) below it. -/
def strideFrom (shp : Nat → Nat) (elem : Nat) : Nat → Nat → Nat
  | _, 0 => elem
  | i, k + 1 => (strideFrom shp elem (i + 1) k * shp (i + 1)) % U64MOD

/-- The shape slots written by `adead_tensor_create` into the zeroed 8-slot
array: slots `0 .. ndim-1` take the caller's values, the rest stay 0. -/
def shapeSlots (shp : Nat → Nat) (ndim : Nat) : List Nat :=
  (List.range 8).map (fun j => if j < ndim then shp j else 0)

/-- The stride slots written by `adead_tensor_create` into the zeroed 8-slot
array. -/
def strideSlots (shp : Nat → Nat) (elem ndim : Nat) : List Nat :=
  (List.range 8).map (fun j => if j < ndim then strideFrom shp elem j (ndim - 1 - j) else 0)

/-- `numel` as accumulated by the first loop of `adead_tensor_create`
(`u64` products of the first `ndim` caller shape entries). -/
def numelOf (shp : Nat → Nat) (ndim : Nat) : Nat :=
  (List.range ndim).foldl (fun n i => (n * shp i) % U64MOD) 1

/-- `adead_tensor_create` from runtime.c.  The caller's shape pointer is a
function (null = `none`); `tensor` is the prior contents of the out-parameter.
Null `rt`/`tensor`/`shape` or `ndim ∉ [1,8]` return `ADEAD_ERROR_INVALID_PARAM`
with the out-parameter untouched.  Otherwise the descriptor is zeroed, shape,
strides, `ndim`, `dtype`, `device` and `size_bytes` are filled in, and only
then is the backend allocator consulted, so an allocation failure returns
`ADEAD_ERROR_OUT_OF_MEMORY` with those fields already populated and `data`
still null.  A null capability table would be dereferenced (undefined
behaviour), modelled as `none`. -/
def adead_tensor_create (oracle : Nat → Bool) (rt : Option ADeadRuntime)
    (tensor : Option ADeadTensor) (shape : Option (Nat → Nat))
    (ndim dtype : Nat) (h : Heap) :
    Option (ADeadError × Option ADeadTensor × Option ADeadRuntime × Heap) :=
  match rt, tensor, shape with
  | some r, some _, some shp =>
    if ndim = 0 ∨ ADEAD_MAX_DIMS < ndim then
      some (.errInvalidParam, tensor, rt, h)
    else
      let elem := adead_dtype_size dtype
      let sb := (numelOf shp ndim * elem) % U64MOD
      let t1 : ADeadTensor :=
        ⟨none, shapeSlots shp ndim, strideSlots shp elem ndim,
         ndim, dtype, r.active_backend, sb⟩
      match r.backend_vtable with
      | none => none
      | some _ =>
        match cpu_alloc oracle r.cpuCtx sb h with
        | (none, c', h') =>
          some (.errOutOfMemory, some t1, some { r with cpuCtx := c' }, h')
        | (some p, c', h') =>
          some (.ok, some { t1 with data := some p },
                some { r with cpuCtx := c' }, h')
  | _, _, _ => some (.errInvalidParam, tensor, rt, h)

/-- `adead_tensor_copy_from` from runtime.c.  Returns the error code and the
byte count handed to the backend `copy_h2d` (the requested `size`, clamped to
the tensor's `size_bytes` when larger).  A null capability table would be
dereferenced: `none`. -/
def adead_tensor_copy_from (rt : Option ADeadRuntime)
    (tensor : Option ADeadTensor) (data : Option Ptr) (size : Nat) :
    Option (ADeadError × Nat) :=
  match rt, tensor, data with
  | some r, some t, some _ =>
    let sz := if t.size_bytes < size then t.size_bytes else size
    match r.backend_vtable with
    | none => none
    | some _ => some (.ok, sz)
  | _, _, _ => some (.errInvalidParam, 0)

/-- `adead_tensor_copy_to` from runtime.c: same clamping, via `copy_d2h`. -/
def adead_tensor_copy_to (rt : Option ADeadRuntime)
    (tensor : Option ADeadTensor) (data : Option Ptr) (size : Nat) :
    Option (ADeadError × Nat) :=
  match rt, tensor, data with
  | some r, some t, some _ =>
    let sz := if t.size_bytes < size then t.size_bytes else size
    match r.backend_vtable with
    | none => none
    | some _ => some (.ok, sz)
  | _, _, _ => some (.errInvalidParam, 0)

/- ============================================================
   Public numeric operations (runtime.c)
   ============================================================ -/

/-- Which backend kernel entry a public operation invoked, with the integer
arguments the dispatcher computed.  The `u64 → i32` casts of runtime.c are
modelled by reduction modulo `2^32` (the bit pattern handed to the kernel);
the floating-point kernel bodies themselves are not modelled. -/
inductive BackendCall where
  | matmul (m n k : Nat)
  | add (size : Nat)
  | relu (size : Nat)
  | softmax (rows cols : Nat)
deriving DecidableEq, Repr

/-- `adead_matmul` from runtime.c: null-pointer checks only, then
`m = a.shape[0]`, `k = a.shape[1]`, `n = b.shape[1]` and the backend call.
A null capability table would be dereferenced: `none`. -/
def adead_matmul (rt : Option ADeadRuntime) (a b c : Option ADeadTensor) :
    Option (ADeadError × Option BackendCall) :=
  match rt, a, b, c with
  | some r, some ta, some tb, some _ =>
    let m := ta.shape.getD 0 0 % U32MOD
    let k := ta.shape.getD 1 0 % U32MOD
    let n := tb.shape.getD 1 0 % U32MOD
    match r.backend_vtable with
    | none => none
    | some _ => some (.ok, some (.matmul m n k))
  | _, _, _, _ => some (.errInvalidParam, none)

/-- `adead_add` from runtime.c: null-pointer checks only, size from
`adead_tensor_numel(a)`. -/
def adead_add (rt : Option ADeadRuntime) (a b c : Option ADeadTensor) :
    Option (ADeadError × Option BackendCall) :=
  match rt, a, b, c with
  | some r, some ta, some _, some _ =>
    let size := adead_tensor_numel ta % U32MOD
    match r.backend_vtable with
    | none => none
    | some _ => some (.ok, some (.add size))
  | _, _, _, _ => some (.errInvalidParam, none)

/-- `adead_relu` from runtime.c: null-pointer checks only, size from
`adead_tensor_numel(in)`. -/
def adead_relu (rt : Option ADeadRuntime) (tin tout : Option ADeadTensor) :
    Option (ADeadError × Option BackendCall) :=
  match rt, tin, tout with
  | some r, some ti, some _ =>
    let size := adead_tensor_numel ti % U32MOD
    match r.backend_vtable with
    | none => none
    | some _ => some (.ok, some (.relu size))
  | _, _, _ => some (.errInvalidParam, none)

/-- `adead_softmax` from runtime.c: null-pointer checks only,
`rows = in.shape[0]`, `cols = in.shape[1]`. -/
def adead_softmax (rt : Option ADeadRuntime) (tin tout : Option ADeadTensor) :
    Option (ADeadError × Option BackendCall) :=
  match rt, tin, tout with
  | some r, some ti, some _ =>
    let rows := ti.shape.getD 0 0 % U32MOD
    let cols := ti.shape.getD 1 0 % U32MOD
    match r.backend_vtable with
    | none => none
    | some _ => some (.ok, some (.softmax rows cols))
  | _, _, _ => some (.errInvalidParam, none)

/- ============================================================
   Shared concrete objects for witnesses / counterexamples
   ============================================================ -/

/-- A runtime carrying the CPU capability table but with `initialized = 0`
(as a zeroed `ADeadRuntime` whose `backend_vtable` field alone was set). -/
def rtCpu : ADeadRuntime :=
  { zeroRuntime with backend_vtable := some .cpuVtable }

/-- A concrete 2×2 f32 tensor descriptor (shape `[2,2]`, strides `[8,4]`,
16 bytes). -/
def tEx : ADeadTensor :=
  ⟨some (0, 0), [2, 2, 0, 0, 0, 0, 0, 0], [8, 4, 0, 0, 0, 0, 0, 0], 2, 0, 0, 16⟩

/- ============================================================
   C3: arena alloc
   ============================================================ -/

/-- C3 counterexample: the claim quantifies over *every* `alloc(size,
alignment)` call and asserts that whenever `aligned_offset + size ≤ capacity`
the call returns `base + aligned_offset`.  At `size = 0` (arena of capacity 16,
offset 0, alignment 1) the aligned offset plus the size is within capacity,
yet `adead_arena_alloc` returns the null pointer (the `size == 0` guard) and
leaves the arena unchanged. -/
theorem arena_alloc_zero_size_counterexample :
    adead_align_up 0 1 + 0 ≤ (16 : Nat) ∧
    adead_arena_alloc ⟨some 0, 0, 16, 0⟩ 0 1 = (none, ⟨some 0, 0, 16, 0⟩) := by
  decide

/-- C3 (amended: for calls with `size > 0`): on an initialized arena,
`adead_arena_alloc` computes `aligned_offset = adead_align_up offset alignment`;
if `aligned_offset + size` (as `usize`) exceeds `capacity` it returns the null
pointer and leaves the arena (offset, peak, capacity) unchanged — in
particular the first allocation that would exceed capacity fails with `offset`
unchanged; otherwise it returns the address `base + aligned_offset`, advances
`offset` to `aligned_offset + size` and sets `peak = max peak offset`. -/
theorem arena_alloc_spec (arena : ADeadArena) (b size alignment : Nat)
    (hbase : arena.base = some b) (hsize : 0 < size) :
    (arena.capacity < (adead_align_up arena.offset alignment + size) % U64MOD →
       adead_arena_alloc arena size alignment = (none, arena)) ∧
    ((adead_align_up arena.offset alignment + size) % U64MOD ≤ arena.capacity →
       adead_arena_alloc arena size alignment =
         (some (b, adead_align_up arena.offset alignment),
          { arena with
              offset := (adead_align_up arena.offset alignment + size) % U64MOD,
              peak := max arena.peak
                ((adead_align_up arena.offset alignment + size) % U64MOD) })) := by
  unfold adead_arena_alloc
  rw [hbase]
  have hs : ¬ size = 0 := by omega
  simp only [hs, if_false]
  constructor
  · intro hlt
    rw [if_pos hlt]
  · intro hle
    rw [if_neg (by omega)]
    have hpeak :
        (if arena.peak < (adead_align_up arena.offset alignment + size) % U64MOD
           then (adead_align_up arena.offset alignment + size) % U64MOD
           else arena.peak) =
          max arena.peak ((adead_align_up arena.offset alignment + size) % U64MOD) := by
      split <;> omega
    rw [hpeak]

/-- Witness for `arena_alloc_spec` at a concrete input: arena of capacity 16,
`alloc(8, 16)` from offset 0 succeeds at aligned offset 0. -/
theorem arena_alloc_spec_witness :
    (adead_align_up 0 16 + 8) % U64MOD ≤ (16 : Nat) ∧
    adead_arena_alloc ⟨some 0, 0, 16, 0⟩ 8 16 =
      (some (0, adead_align_up 0 16),
       ⟨some 0, (adead_align_up 0 16 + 8) % U64MOD, 16,
        max 0 ((adead_align_up 0 16 + 8) % U64MOD)⟩) :=
  ⟨by decide, (arena_alloc_spec ⟨some 0, 0, 16, 0⟩ 0 8 16 rfl (by decide)).2 (by decide)⟩

/- ============================================================
   C4: pool with block_size = 256, num_blocks = 4
   ============================================================ -/

/-- C4: a pool initialized with `block_size = 256`, `num_blocks = 4` has its
free list in reverse index order (`[768, 512, 256, 0]`, highest index at the
head); exactly 4 consecutive allocations succeed, the first returning the
highest-index block; the 5th fails with the pool unchanged; and after freeing
any one of the four blocks, the next allocation returns exactly that block
(LIFO reuse). -/
theorem pool_256x4_scenario :
    adead_pool_init (fun _ => true) ⟨none, [], 0, 0, 0⟩ 256 4 ⟨0, []⟩ =
      (.ok, ⟨some 0, [768, 512, 256, 0], 256, 4, 0⟩, ⟨1, [0]⟩) ∧
    adead_pool_alloc ⟨some 0, [768, 512, 256, 0], 256, 4, 0⟩ =
      (some (0, 768), ⟨some 0, [512, 256, 0], 256, 4, 1⟩) ∧
    adead_pool_alloc ⟨some 0, [512, 256, 0], 256, 4, 1⟩ =
      (some (0, 512), ⟨some 0, [256, 0], 256, 4, 2⟩) ∧
    adead_pool_alloc ⟨some 0, [256, 0], 256, 4, 2⟩ =
      (some (0, 256), ⟨some 0, [0], 256, 4, 3⟩) ∧
    adead_pool_alloc ⟨some 0, [0], 256, 4, 3⟩ =
      (some (0, 0), ⟨some 0, [], 256, 4, 4⟩) ∧
    adead_pool_alloc ⟨some 0, [], 256, 4, 4⟩ = (none, ⟨some 0, [], 256, 4, 4⟩) ∧
    (adead_pool_free ⟨some 0, [], 256, 4, 4⟩ (some (0, 768)) =
        ⟨some 0, [768], 256, 4, 3⟩ ∧
      adead_pool_alloc ⟨some 0, [768], 256, 4, 3⟩ =
        (some (0, 768), ⟨some 0, [], 256, 4, 4⟩)) ∧
    (adead_pool_free ⟨some 0, [], 256, 4, 4⟩ (some (0, 512)) =
        ⟨some 0, [512], 256, 4, 3⟩ ∧
      adead_pool_alloc ⟨some 0, [512], 256, 4, 3⟩ =
        (some (0, 512), ⟨some 0, [], 256, 4, 4⟩)) ∧
    (adead_pool_free ⟨some 0, [], 256, 4, 4⟩ (some (0, 256)) =
        ⟨some 0, [256], 256, 4, 3⟩ ∧
      adead_pool_alloc ⟨some 0, [256], 256, 4, 3⟩ =
        (some (0, 256), ⟨some 0, [], 256, 4, 4⟩)) ∧
    (adead_pool_free ⟨some 0, [], 256, 4, 4⟩ (some (0, 0)) =
        ⟨some 0, [0], 256, 4, 3⟩ ∧
      adead_pool_alloc ⟨some 0, [0], 256, 4, 3⟩ =
        (some (0, 0), ⟨some 0, [], 256, 4, 4⟩)) := by
  decide

/- ============================================================
   C10: shutdown idempotence
   ============================================================ -/

/-- C10: `adead_shutdown` on a context whose `initialized` flag is zero
returns immediately, leaving the context and heap unchanged and invoking
neither the backend shutdown hook nor memory-manager destruction; and, since a
real shutdown zeroes the whole structure, shutdown of a shutdown state is
always that same no-op, so shutdown ∘ shutdown = shutdown. -/
theorem shutdown_uninitialized_noop_and_idempotent :
    (∀ (r : ADeadRuntime) (h : Heap), r.initialized = 0 →
        adead_shutdown (some r) h = (some r, h, false, false)) ∧
    (∀ (rt : Option ADeadRuntime) (h : Heap),
        adead_shutdown (adead_shutdown rt h).1 (adead_shutdown rt h).2.1 =
          ((adead_shutdown rt h).1, (adead_shutdown rt h).2.1, false, false)) := by
  constructor
  · intro r h h0
    simp [adead_shutdown, h0]
  · intro rt h
    rcases rt with _ | r
    · rfl
    · by_cases h0 : r.initialized = 0
      · simp [adead_shutdown, h0]
      · rcases r with ⟨⟨⟨sb, so, sc, sp⟩, ⟨pb, pf, pbs, pc, pu⟩, ta, tf, ac, fc⟩,
          ab, bv, bc, cc, fl, init⟩
        rcases bv with _ | vt <;> rcases bc with _ | cid <;>
          rcases sb with _ | sid <;> rcases pb with _ | pid <;>
            simp_all [adead_shutdown, adead_memory_destroy, adead_arena_destroy,
              adead_pool_destroy, zeroRuntime, zeroMM]

/-- Witness for `shutdown_uninitialized_noop_and_idempotent` on the zeroed
runtime (its `initialized` flag is 0). -/
theorem shutdown_uninitialized_witness :
    zeroRuntime.initialized = 0 ∧
    adead_shutdown (some zeroRuntime) ⟨0, []⟩ = (some zeroRuntime, ⟨0, []⟩, false, false) :=
  ⟨rfl, shutdown_uninitialized_noop_and_idempotent.1 zeroRuntime ⟨0, []⟩ rfl⟩

/- ============================================================
   C8: copy clamping
   ============================================================ -/

/-- C8: for every tensor and caller byte count, `adead_tensor_copy_from` and
`adead_tensor_copy_to` with a count strictly greater than the tensor's
`size_bytes` copy exactly `size_bytes` bytes and return `ADEAD_OK` (no error);
with a count at most `size_bytes` they copy exactly the requested count. -/
theorem tensor_copy_clamps (rt : ADeadRuntime) (vt : ADeadBackendVTable)
    (hvt : rt.backend_vtable = some vt) (t : ADeadTensor) (p : Ptr) (size : Nat) :
    (t.size_bytes < size →
        adead_tensor_copy_from (some rt) (some t) (some p) size = some (.ok, t.size_bytes) ∧
        adead_tensor_copy_to (some rt) (some t) (some p) size = some (.ok, t.size_bytes)) ∧
    (size ≤ t.size_bytes →
        adead_tensor_copy_from (some rt) (some t) (some p) size = some (.ok, size) ∧
        adead_tensor_copy_to (some rt) (some t) (some p) size = some (.ok, size)) := by
  constructor
  · intro hlt
    simp [adead_tensor_copy_from, adead_tensor_copy_to, hvt, hlt]
  · intro hle
    simp [adead_tensor_copy_from, adead_tensor_copy_to, hvt, Nat.not_lt.mpr hle]

/-- Witness for `tensor_copy_clamps`: copying 20 bytes into/out of the 16-byte
tensor `tEx` copies exactly 16 bytes and reports `ADEAD_OK`. -/
theorem tensor_copy_clamps_witness :
    tEx.size_bytes < 20 ∧
    adead_tensor_copy_from (some rtCpu) (some tEx) (some (0, 0)) 20 = some (.ok, tEx.size_bytes) ∧
    adead_tensor_copy_to (some rtCpu) (some tEx) (some (0, 0)) 20 = some (.ok, tEx.size_bytes) :=
  ⟨by decide, (tensor_copy_clamps rtCpu .cpuVtable rfl tEx (0, 0) 20).1 (by decide)⟩

/- ============================================================
   C1: what the public operations actually check
   ============================================================ -/

/-- C1 counterexample: `rtCpu` has `initialized = 0` (and a non-null
capability table), yet `adead_matmul` on it returns `ADEAD_OK` and invokes the
backend matmul kernel — it does not return `ADEAD_ERROR_INVALID_PARAM` as the
claim requires when the `initialized` check fails. -/
theorem ops_initialized_check_counterexample :
    rtCpu.initialized = 0 ∧
    adead_matmul (some rtCpu) (some tEx) (some tEx) (some tEx) =
      some (.ok, some (.matmul 2 2 2)) ∧
    ADeadError.ok ≠ ADeadError.errInvalidParam := by
  decide

/-- C1 (amended): each public operation (`adead_matmul`, `adead_add`,
`adead_relu`, `adead_softmax`, tensor create/copy) checks only that its
pointer arguments are non-null (plus, for `adead_tensor_create`, that
`1 ≤ ndim ≤ 8`), returning `ADEAD_ERROR_INVALID_PARAM` when one is null
without invoking the backend; it consults neither the `initialized` flag nor
the capability-table pointer before forwarding, so with non-null arguments and
an installed table it forwards to the backend even on an uninitialized
context. -/
theorem ops_null_checks_only :
    (∀ (rt : Option ADeadRuntime) (a b c : Option ADeadTensor),
        rt = none ∨ a = none ∨ b = none ∨ c = none →
        adead_matmul rt a b c = some (.errInvalidParam, none)) ∧
    (∀ (rt : ADeadRuntime) (vt : ADeadBackendVTable) (a b c : ADeadTensor),
        rt.backend_vtable = some vt →
        adead_matmul (some rt) (some a) (some b) (some c) =
          some (.ok, some (.matmul (a.shape.getD 0 0 % U32MOD)
            (b.shape.getD 1 0 % U32MOD) (a.shape.getD 1 0 % U32MOD)))) ∧
    (∀ (rt : Option ADeadRuntime) (a b c : Option ADeadTensor),
        rt = none ∨ a = none ∨ b = none ∨ c = none →
        adead_add rt a b c = some (.errInvalidParam, none)) ∧
    (∀ (rt : ADeadRuntime) (vt : ADeadBackendVTable) (a b c : ADeadTensor),
        rt.backend_vtable = some vt →
        adead_add (some rt) (some a) (some b) (some c) =
          some (.ok, some (.add (adead_tensor_numel a % U32MOD)))) ∧
    (∀ (rt : Option ADeadRuntime) (tin tout : Option ADeadTensor),
        rt = none ∨ tin = none ∨ tout = none →
        adead_relu rt tin tout = some (.errInvalidParam, none)) ∧
    (∀ (rt : ADeadRuntime) (vt : ADeadBackendVTable) (tin tout : ADeadTensor),
        rt.backend_vtable = some vt →
        adead_relu (some rt) (some tin) (some tout) =
          some (.ok, some (.relu (adead_tensor_numel tin % U32MOD)))) ∧
    (∀ (rt : Option ADeadRuntime) (tin tout : Option ADeadTensor),
        rt = none ∨ tin = none ∨ tout = none →
        adead_softmax rt tin tout = some (.errInvalidParam, none)) ∧
    (∀ (rt : ADeadRuntime) (vt : ADeadBackendVTable) (tin tout : ADeadTensor),
        rt.backend_vtable = some vt →
        adead_softmax (some rt) (some tin) (some tout) =
          some (.ok, some (.softmax (tin.shape.getD 0 0 % U32MOD)
            (tin.shape.getD 1 0 % U32MOD)))) ∧
    (∀ (oracle : Nat → Bool) (rt : Option ADeadRuntime)
        (tensor : Option ADeadTensor) (shape : Option (Nat → Nat))
        (ndim dtype : Nat) (h : Heap),
        rt = none ∨ tensor = none ∨ shape = none →
        adead_tensor_create oracle rt tensor shape ndim dtype h =
          some (.errInvalidParam, tensor, rt, h)) ∧
    (∀ (oracle : Nat → Bool) (rt : ADeadRuntime) (vt : ADeadBackendVTable)
        (tz : ADeadTensor) (shp : Nat → Nat) (ndim dtype : Nat) (h : Heap)
        (e : ADeadError) rest,
        rt.backend_vtable = some vt → 1 ≤ ndim → ndim ≤ 8 →
        adead_tensor_create oracle (some rt) (some tz) (some shp) ndim dtype h =
          some (e, rest) →
        e ≠ .errInvalidParam) ∧
    (∀ (rt : Option ADeadRuntime) (tensor : Option ADeadTensor)
        (data : Option Ptr) (size : Nat),
        rt = none ∨ tensor = none ∨ data = none →
        adead_tensor_copy_from rt tensor data size = some (.errInvalidParam, 0) ∧
        adead_tensor_copy_to rt tensor data size = some (.errInvalidParam, 0)) ∧
    (∀ (rt : ADeadRuntime) (vt : ADeadBackendVTable) (t : ADeadTensor)
        (p : Ptr) (size : Nat),
        rt.backend_vtable = some vt →
        adead_tensor_copy_from (some rt) (some t) (some p) size =
          some (.ok, if t.size_bytes < size then t.size_bytes else size) ∧
        adead_tensor_copy_to (some rt) (some t) (some p) size =
          some (.ok, if t.size_bytes < size then t.size_bytes else size)) := by
  refine ⟨?_, ?_, ?_, ?_, ?_, ?_, ?_, ?_, ?_, ?_, ?_, ?_⟩
  · intro rt a b c hnull
    rcases rt with _ | r <;> rcases a with _ | ta <;> rcases b with _ | tb <;>
      rcases c with _ | tc <;> first | rfl | simp at hnull
  · intro rt vt a b c hvt
    simp [adead_matmul, hvt]
  · intro rt a b c hnull
    rcases rt with _ | r <;> rcases a with _ | ta <;> rcases b with _ | tb <;>
      rcases c with _ | tc <;> first | rfl | simp at hnull
  · intro rt vt a b c hvt
    simp [adead_add, hvt]
  · intro rt tin tout hnull
    rcases rt with _ | r <;> rcases tin with _ | ti <;> rcases tout with _ | to_ <;>
      first | rfl | simp at hnull
  · intro rt vt tin tout hvt
    simp [adead_relu, hvt]
  · intro rt tin tout hnull
    rcases rt with _ | r <;> rcases tin with _ | ti <;> rcases tout with _ | to_ <;>
      first | rfl | simp at hnull
  · intro rt vt tin tout hvt
    simp [adead_softmax, hvt]
  · intro oracle rt tensor shape ndim dtype h hnull
    rcases rt with _ | r <;> rcases tensor with _ | tz <;> rcases shape with _ | shp <;>
      first | rfl | simp at hnull
  · intro oracle rt vt tz shp ndim dtype h e rest hvt hnd1 hnd8 heq
    have hcond : ¬ (ndim = 0 ∨ ADEAD_MAX_DIMS < ndim) := by
      simp only [ADEAD_MAX_DIMS]
      omega
    simp only [adead_tensor_create, hvt, if_neg hcond] at heq
    rcases halloc : cpu_alloc oracle rt.cpuCtx
        ((numelOf shp ndim * adead_dtype_size dtype) % U64MOD) h with ⟨po, c', h'⟩
    rw [halloc] at heq
    rcases po with _ | p <;>
      (simp only [Option.some.injEq, Prod.mk.injEq] at heq
       obtain ⟨he, -⟩ := heq
       subst he
       decide)
  · intro rt tensor data size hnull
    rcases rt with _ | r <;> rcases tensor with _ | t <;> rcases data with _ | d <;>
      first | exact ⟨rfl, rfl⟩ | simp at hnull
  · intro rt vt t p size hvt
    constructor <;> simp [adead_tensor_copy_from, adead_tensor_copy_to, hvt]

/-- Witness for `ops_null_checks_only`, instantiating every part at concrete
inputs (a null first argument for the null checks; `rtCpu`, whose
`initialized` flag is 0, for the forwarding parts). -/
theorem ops_null_checks_only_witness :
    adead_matmul none (some tEx) (some tEx) (some tEx) = some (.errInvalidParam, none) ∧
    adead_matmul (some rtCpu) (some tEx) (some tEx) (some tEx) =
      some (.ok, some (.matmul (tEx.shape.getD 0 0 % U32MOD)
        (tEx.shape.getD 1 0 % U32MOD) (tEx.shape.getD 1 0 % U32MOD))) ∧
    adead_add none (some tEx) (some tEx) (some tEx) = some (.errInvalidParam, none) ∧
    adead_add (some rtCpu) (some tEx) (some tEx) (some tEx) =
      some (.ok, some (.add (adead_tensor_numel tEx % U32MOD))) ∧
    adead_relu none (some tEx) (some tEx) = some (.errInvalidParam, none) ∧
    adead_relu (some rtCpu) (some tEx) (some tEx) =
      some (.ok, some (.relu (adead_tensor_numel tEx % U32MOD))) ∧
    adead_softmax none (some tEx) (some tEx) = some (.errInvalidParam, none) ∧
    adead_softmax (some rtCpu) (some tEx) (some tEx) =
      some (.ok, some (.softmax (tEx.shape.getD 0 0 % U32MOD)
        (tEx.shape.getD 1 0 % U32MOD))) ∧
    adead_tensor_create (fun _ => true) none (some zeroTensor) (some (fun _ => 1)) 2 0 ⟨0, []⟩ =
      some (.errInvalidParam, some zeroTensor, none, ⟨0, []⟩) ∧
    ADeadError.ok ≠ ADeadError.errInvalidParam ∧
    (adead_tensor_copy_from none (some tEx) (some (0, 0)) 4 = some (.errInvalidParam, 0) ∧
      adead_tensor_copy_to none (some tEx) (some (0, 0)) 4 = some (.errInvalidParam, 0)) ∧
    (adead_tensor_copy_from (some rtCpu) (some tEx) (some (0, 0)) 20 =
        some (.ok, if tEx.size_bytes < 20 then tEx.size_bytes else 20) ∧
      adead_tensor_copy_to (some rtCpu) (some tEx) (some (0, 0)) 20 =
        some (.ok, if tEx.size_bytes < 20 then tEx.size_bytes else 20)) :=
  ⟨ops_null_checks_only.1 none (some tEx) (some tEx) (some tEx) (Or.inl rfl),
   ops_null_checks_only.2.1 rtCpu .cpuVtable tEx tEx tEx rfl,
   ops_null_checks_only.2.2.1 none (some tEx) (some tEx) (some tEx) (Or.inl rfl),
   ops_null_checks_only.2.2.2.1 rtCpu .cpuVtable tEx tEx tEx rfl,
   ops_null_checks_only.2.2.2.2.1 none (some tEx) (some tEx) (Or.inl rfl),
   ops_null_checks_only.2.2.2.2.2.1 rtCpu .cpuVtable tEx tEx rfl,
   ops_null_checks_only.2.2.2.2.2.2.1 none (some tEx) (some tEx) (Or.inl rfl),
   ops_null_checks_only.2.2.2.2.2.2.2.1 rtCpu .cpuVtable tEx tEx rfl,
   ops_null_checks_only.2.2.2.2.2.2.2.2.1 (fun _ => true) none (some zeroTensor)
     (some (fun _ => 1)) 2 0 ⟨0, []⟩ (Or.inl rfl),
   ops_null_checks_only.2.2.2.2.2.2.2.2.2.1 (fun _ => true) rtCpu .cpuVtable zeroTensor
     (fun _ => 1) 1 0 ⟨0, []⟩ .ok
     (some ⟨some (0, 0), [1, 0, 0, 0, 0, 0, 0, 0], [4, 0, 0, 0, 0, 0, 0, 0], 1, 0, 0, 4⟩,
      some ⟨zeroMM, 0, some .cpuVtable, none, ⟨4, 4⟩, 0, 0⟩, ⟨1, [0]⟩)
     rfl (by decide) (by decide) (by decide),
   ops_null_checks_only.2.2.2.2.2.2.2.2.2.2.1 none (some tEx) (some (0, 0)) 4 (Or.inl rfl),
   ops_null_checks_only.2.2.2.2.2.2.2.2.2.2.2 rtCpu .cpuVtable tEx (0, 0) 20 rfl⟩

/- ============================================================
   C2 / C9: tensor creation
   ============================================================ -/

/-- Slot lookup in the shape array written by `adead_tensor_create`. -/
theorem shapeSlots_getD (shp : Nat → Nat) (ndim j : Nat) (hj : j < 8) :
    (shapeSlots shp ndim).getD j 0 = if j < ndim then shp j else 0 := by
  simp [shapeSlots, List.getD_eq_getElem?_getD, List.getElem?_map, List.getElem?_range, hj]

/-- Slot lookup in the stride array written by `adead_tensor_create`. -/
theorem strideSlots_getD (shp : Nat → Nat) (elem ndim j : Nat) (hj : j < 8) :
    (strideSlots shp elem ndim).getD j 0 =
      if j < ndim then strideFrom shp elem j (ndim - 1 - j) else 0 := by
  simp [strideSlots, List.getD_eq_getElem?_getD, List.getElem?_map, List.getElem?_range, hj]

/-- C2 counterexample: on a backend allocation failure (`malloc` oracle always
false), `adead_tensor_create` for shape `[2,3]`, f32, returns
`ADEAD_ERROR_OUT_OF_MEMORY` but the out descriptor is *not* entirely zeroed:
its shape, strides, `ndim`, and `size_bytes` hold the computed values (only
`data` is null), so it differs from the zeroed descriptor. -/
theorem tensor_create_failure_not_zeroed_counterexample :
    adead_tensor_create (fun _ => false) (some rtCpu) (some zeroTensor)
        (some (fun i => [2, 3].getD i 0)) 2 0 ⟨0, []⟩ =
      some (.errOutOfMemory,
            some ⟨none, [2, 3, 0, 0, 0, 0, 0, 0], [12, 4, 0, 0, 0, 0, 0, 0], 2, 0, 0, 24⟩,
            some rtCpu, ⟨1, []⟩) ∧
    (⟨none, [2, 3, 0, 0, 0, 0, 0, 0], [12, 4, 0, 0, 0, 0, 0, 0], 2, 0, 0, 24⟩ :
        ADeadTensor) ≠ zeroTensor := by
  decide

/-- C2 (amended): for every runtime with an installed capability table and
valid shape/ndim/dtype arguments, if the backend allocator fails,
`adead_tensor_create` returns `ADEAD_ERROR_OUT_OF_MEMORY`; the descriptor's
`data` handle is null, but its shape, strides, `ndim`, `dtype`, `device` and
`size_bytes` fields hold the values computed for the request — the descriptor
is not entirely zeroed (in particular `ndim ≠ 0`). -/
theorem tensor_create_alloc_failure (oracle : Nat → Bool) (rt : ADeadRuntime)
    (vt : ADeadBackendVTable) (tz : ADeadTensor) (shp : Nat → Nat)
    (ndim dtype : Nat) (h : Heap)
    (hvt : rt.backend_vtable = some vt) (hnd1 : 1 ≤ ndim) (hnd8 : ndim ≤ 8)
    (hfail : oracle h.nextId = false) :
    adead_tensor_create oracle (some rt) (some tz) (some shp) ndim dtype h =
      some (.errOutOfMemory,
            some ⟨none, shapeSlots shp ndim,
                  strideSlots shp (adead_dtype_size dtype) ndim,
                  ndim, dtype, rt.active_backend,
                  (numelOf shp ndim * adead_dtype_size dtype) % U64MOD⟩,
            some rt, ⟨h.nextId + 1, h.live⟩) ∧
    ndim ≠ 0 := by
  have hcond : ¬ (ndim = 0 ∨ ADEAD_MAX_DIMS < ndim) := by
    simp only [ADEAD_MAX_DIMS]
    omega
  refine ⟨?_, by omega⟩
  simp [adead_tensor_create, hvt, hcond, cpu_alloc, hmalloc, hfail]
  rw [← hvt]

/-- Witness for `tensor_create_alloc_failure` at shape `[2,3]`, f32, on the
always-failing allocator. -/
theorem tensor_create_alloc_failure_witness :
    (fun (_ : Nat) => false) (Heap.mk 0 []).nextId = false ∧
    (adead_tensor_create (fun _ => false) (some rtCpu) (some zeroTensor)
        (some (fun i => [2, 3].getD i 0)) 2 0 ⟨0, []⟩ =
      some (.errOutOfMemory,
            some ⟨none, shapeSlots (fun i => [2, 3].getD i 0) 2,
                  strideSlots (fun i => [2, 3].getD i 0) (adead_dtype_size 0) 2,
                  2, 0, rtCpu.active_backend,
                  (numelOf (fun i => [2, 3].getD i 0) 2 * adead_dtype_size 0) % U64MOD⟩,
            some rtCpu, ⟨1, []⟩) ∧
      (2 : Nat) ≠ 0) :=
  ⟨rfl, tensor_create_alloc_failure (fun _ => false) rtCpu .cpuVtable zeroTensor
    (fun i => [2, 3].getD i 0) 2 0 ⟨0, []⟩ rfl (by decide) (by decide) rfl⟩

/-- C9: every successfully created tensor has a strictly contiguous row-major
layout: `strides[ndim-1]` is the dtype element size and `strides[i] =
strides[i+1] · shape[i+1]` (`u64` product) for `i + 1 < ndim`; moreover shape
`[2,3,4]` gives `numel = 24` and a 4-byte dtype with shape `[2,3]` gives
strides `[12,4]`. -/
theorem tensor_create_rowmajor (oracle : Nat → Bool) (rt : ADeadRuntime)
    (vt : ADeadBackendVTable) (tz : ADeadTensor) (shp : Nat → Nat)
    (ndim dtype : Nat) (h : Heap) (t : ADeadTensor)
    (rt' : Option ADeadRuntime) (h' : Heap)
    (hvt : rt.backend_vtable = some vt)
    (hsucc : adead_tensor_create oracle (some rt) (some tz) (some shp) ndim dtype h =
      some (.ok, some t, rt', h')) :
    1 ≤ ndim ∧ ndim ≤ 8 ∧
    t.strides.getD (ndim - 1) 0 = adead_dtype_size dtype ∧
    (∀ i, i + 1 < ndim →
        t.strides.getD i 0 =
          (t.strides.getD (i + 1) 0 * t.shape.getD (i + 1) 0) % U64MOD) ∧
    adead_tensor_create (fun _ => true) (some rtCpu) (some zeroTensor)
        (some (fun i => [2, 3, 4].getD i 0)) 3 0 ⟨0, []⟩ =
      some (.ok,
            some ⟨some (0, 0), [2, 3, 4, 0, 0, 0, 0, 0], [48, 16, 4, 0, 0, 0, 0, 0],
                  3, 0, 0, 96⟩,
            some ⟨zeroMM, 0, some .cpuVtable, none, ⟨96, 96⟩, 0, 0⟩, ⟨1, [0]⟩) ∧
    adead_tensor_numel
        ⟨some (0, 0), [2, 3, 4, 0, 0, 0, 0, 0], [48, 16, 4, 0, 0, 0, 0, 0],
         3, 0, 0, 96⟩ = 24 ∧
    adead_tensor_create (fun _ => true) (some rtCpu) (some zeroTensor)
        (some (fun i => [2, 3].getD i 0)) 2 0 ⟨0, []⟩ =
      some (.ok,
            some ⟨some (0, 0), [2, 3, 0, 0, 0, 0, 0, 0], [12, 4, 0, 0, 0, 0, 0, 0],
                  2, 0, 0, 24⟩,
            some ⟨zeroMM, 0, some .cpuVtable, none, ⟨24, 24⟩, 0, 0⟩, ⟨1, [0]⟩) := by
  by_cases hcond : ndim = 0 ∨ ADEAD_MAX_DIMS < ndim
  · simp [adead_tensor_create, if_pos hcond] at hsucc
  · have hnd1 : 1 ≤ ndim := by
      rcases not_or.mp hcond with ⟨h1, -⟩
      omega
    have hnd8 : ndim ≤ 8 := by
      rcases not_or.mp hcond with ⟨-, h2⟩
      simp only [ADEAD_MAX_DIMS] at h2
      omega
    simp only [adead_tensor_create, hvt, if_neg hcond] at hsucc
    rcases halloc : cpu_alloc oracle rt.cpuCtx
        ((numelOf shp ndim * adead_dtype_size dtype) % U64MOD) h with ⟨po, c', h2⟩
    rw [halloc] at hsucc
    rcases po with _ | p
    · simp at hsucc
    · simp only [Option.some.injEq, Prod.mk.injEq] at hsucc
      obtain ⟨-, ht, -⟩ := hsucc
      have hstr : t.strides = strideSlots shp (adead_dtype_size dtype) ndim := by
        rw [← ht]
      have hshp : t.shape = shapeSlots shp ndim := by
        rw [← ht]
      refine ⟨hnd1, hnd8, ?_, ?_, by decide, by decide, by decide⟩
      · rw [hstr, strideSlots_getD _ _ _ _ (by omega), if_pos (by omega)]
        have hk : ndim - 1 - (ndim - 1) = 0 := by omega
        rw [hk]
        rfl
      · intro i hi
        rw [hstr, hshp, strideSlots_getD _ _ _ _ (by omega),
          strideSlots_getD _ _ _ _ (by omega), shapeSlots_getD _ _ _ (by omega),
          if_pos (by omega), if_pos (by omega), if_pos (by omega)]
        have hk : ndim - 1 - i = (ndim - 1 - (i + 1)) + 1 := by omega
        rw [hk]
        rfl

/-- Witness for `tensor_create_rowmajor` at the created `[2,3]` f32 tensor:
its last stride is the element size 4 and its first stride is
`strides[1] · shape[1]`. -/
theorem tensor_create_rowmajor_witness :
    ([12, 4, 0, 0, 0, 0, 0, 0] : List Nat).getD (2 - 1) 0 = adead_dtype_size 0 ∧
    ([12, 4, 0, 0, 0, 0, 0, 0] : List Nat).getD 0 0 =
      (([12, 4, 0, 0, 0, 0, 0, 0] : List Nat).getD 1 0 *
        ([2, 3, 0, 0, 0, 0, 0, 0] : List Nat).getD 1 0) % U64MOD := by
  have h := tensor_create_rowmajor (fun _ => true) rtCpu .cpuVtable zeroTensor
    (fun i => [2, 3].getD i 0) 2 0 ⟨0, []⟩
    ⟨some (0, 0), [2, 3, 0, 0, 0, 0, 0, 0], [12, 4, 0, 0, 0, 0, 0, 0], 2, 0, 0, 24⟩
    (some ⟨zeroMM, 0, some .cpuVtable, none, ⟨24, 24⟩, 0, 0⟩) ⟨1, [0]⟩
    rfl (by decide)
  exact ⟨h.2.2.1, h.2.2.2.1 0 (by decide)⟩

/- ============================================================
   Case-analysis lemmas for the initializers
   ============================================================ -/

/-- The three possible outcomes of `adead_arena_init`. -/
theorem arena_init_cases (oracle : Nat → Bool) (arena : ADeadArena) (cap : Nat)
    (h : Heap) :
    (cap = 0 ∧ adead_arena_init oracle arena cap h = (.errInvalidParam, arena, h)) ∨
    (cap ≠ 0 ∧ oracle h.nextId = false ∧
      adead_arena_init oracle arena cap h =
        (.errOutOfMemory, { arena with base := none }, ⟨h.nextId + 1, h.live⟩)) ∨
    (cap ≠ 0 ∧ oracle h.nextId = true ∧
      adead_arena_init oracle arena cap h =
        (.ok, ⟨some h.nextId, 0, cap, 0⟩, ⟨h.nextId + 1, h.nextId :: h.live⟩)) := by
  by_cases hc : cap = 0
  · exact Or.inl ⟨hc, by simp [adead_arena_init, hc]⟩
  · by_cases ho : oracle h.nextId
    · exact Or.inr (Or.inr ⟨hc, ho, by simp [adead_arena_init, hc, hmalloc, ho]⟩)
    · have ho' : oracle h.nextId = false := by simpa using ho
      exact Or.inr (Or.inl ⟨hc, ho', by simp [adead_arena_init, hc, hmalloc, ho']⟩)

/-- The three possible outcomes of `adead_pool_init`. -/
theorem pool_init_cases (oracle : Nat → Bool) (pool : ADeadPool)
    (block_size num_blocks : Nat) (h : Heap) :
    ((block_size = 0 ∨ num_blocks = 0) ∧
      adead_pool_init oracle pool block_size num_blocks h =
        (.errInvalidParam, pool, h)) ∨
    (¬ (block_size = 0 ∨ num_blocks = 0) ∧ oracle h.nextId = false ∧
      adead_pool_init oracle pool block_size num_blocks h =
        (.errOutOfMemory, { pool with base := none }, ⟨h.nextId + 1, h.live⟩)) ∨
    (¬ (block_size = 0 ∨ num_blocks = 0) ∧ oracle h.nextId = true ∧
      adead_pool_init oracle pool block_size num_blocks h =
        (.ok,
         ⟨some h.nextId,
          buildFreeList
            (adead_align_up (if block_size < 8 then 8 else block_size) ADEAD_ALIGNMENT)
            num_blocks,
          adead_align_up (if block_size < 8 then 8 else block_size) ADEAD_ALIGNMENT,
          num_blocks, 0⟩,
         ⟨h.nextId + 1, h.nextId :: h.live⟩)) := by
  by_cases hc : block_size = 0 ∨ num_blocks = 0
  · exact Or.inl ⟨hc, by simp [adead_pool_init, hc]⟩
  · by_cases ho : oracle h.nextId
    · exact Or.inr (Or.inr ⟨hc, ho, by simp [adead_pool_init, hc, hmalloc, ho]⟩)
    · have ho' : oracle h.nextId = false := by simpa using ho
      exact Or.inr (Or.inl ⟨hc, ho', by simp [adead_pool_init, hc, hmalloc, ho']⟩)

/-- Erasing the two most recently pushed ids restores the original live list. -/
theorem erase_two (a : Nat) (l : List Nat) :
    (((a + 1) :: a :: l).erase a).erase (a + 1) = l := by
  have h1 : ((a + 1) :: a :: l).erase a = (a + 1) :: l := by
    rw [List.erase_cons, if_neg (by simp), List.erase_cons_head]
  rw [h1, List.erase_cons_head]

/- ============================================================
   C6: initialization failures unwind acquired resources
   ============================================================ -/

/-- C6: multi-step initialization is atomic on failure.  Whenever
`adead_memory_init` returns an error, the heap's live allocations are exactly
those before the call (in particular a scratch arena created before a pool
failure has been destroyed) and the returned manager holds no buffer; and
whenever `adead_init` returns an error (backend init hook failure or an
unrecognized backend identity, after the memory manager was created), the
memory manager has been destroyed and the heap's live allocations are exactly
those before the call. -/
theorem init_failure_unwinds :
    (∀ (oracle : Nat → Bool) (ss ps : Nat) (h : Heap),
        (adead_memory_init oracle ss ps h).1 ≠ .ok →
        ((adead_memory_init oracle ss ps h).2.2).live = h.live ∧
        ((adead_memory_init oracle ss ps h).2.1).scratch.base = none ∧
        ((adead_memory_init oracle ss ps h).2.1).tensor_pool.base = none) ∧
    (∀ (oracle : Nat → Bool) (backend : Nat) (h : Heap),
        (adead_init oracle backend h).1 ≠ .ok →
        ((adead_init oracle backend h).2.2).live = h.live ∧
        ((adead_init oracle backend h).2.1).memory.scratch.base = none ∧
        ((adead_init oracle backend h).2.1).memory.tensor_pool.base = none) := by
  constructor
  · intro oracle ss ps h hne
    rcases arena_init_cases oracle zeroMM.scratch ss h with
      ⟨hc, heq⟩ | ⟨hc, ho, heq⟩ | ⟨hc, ho, heq⟩
    · simp only [zeroMM] at heq
      simp [adead_memory_init, zeroMM, heq]
    · simp only [zeroMM] at heq
      simp [adead_memory_init, zeroMM, heq]
    · simp only [zeroMM] at heq
      rcases pool_init_cases oracle zeroMM.tensor_pool 256 (ps / 256)
          ⟨h.nextId + 1, h.nextId :: h.live⟩ with
        ⟨hc2, heq2⟩ | ⟨hc2, ho2, heq2⟩ | ⟨hc2, ho2, heq2⟩
      · simp only [zeroMM] at heq2
        simp [adead_memory_init, zeroMM, heq, heq2, adead_arena_destroy, hfree,
          List.erase_cons_head]
      · simp only [zeroMM] at heq2
        simp [adead_memory_init, zeroMM, heq, heq2, adead_arena_destroy, hfree,
          List.erase_cons_head]
      · simp only [zeroMM] at heq2
        simp [adead_memory_init, zeroMM, heq, heq2] at hne
  · intro oracle backend h hne
    rcases arena_init_cases oracle zeroMM.scratch (64 * 1024 * 1024) h with
      ⟨hc, heq⟩ | ⟨hc, ho, heq⟩ | ⟨hc, ho, heq⟩
    · exact absurd hc (by norm_num)
    · simp only [zeroMM] at heq
      simp [adead_init, adead_memory_init, zeroMM, heq]
    · simp only [zeroMM] at heq
      rcases pool_init_cases oracle zeroMM.tensor_pool 256 ((16 * 1024 * 1024) / 256)
          ⟨h.nextId + 1, h.nextId :: h.live⟩ with
        ⟨hc2, heq2⟩ | ⟨hc2, ho2, heq2⟩ | ⟨hc2, ho2, heq2⟩
      · exact absurd hc2 (by norm_num)
      · simp only [zeroMM] at heq2
        simp [adead_init, adead_memory_init, zeroMM, heq, heq2, adead_arena_destroy,
          hfree, List.erase_cons_head]
      · simp only [zeroMM] at heq2
        by_cases hb : backend = ADEAD_BACKEND_CPU ∨ backend = ADEAD_BACKEND_AUTO ∨
            backend = ADEAD_BACKEND_CUDA ∨ backend = ADEAD_BACKEND_VULKAN
        · by_cases ho3 : oracle (h.nextId + 2)
          · simp [adead_init, adead_memory_init, zeroMM, heq, heq2, hb, cpu_init,
              hmalloc, ho3] at hne
          · have ho3' : oracle (h.nextId + 2) = false := by simpa using ho3
            simp [adead_init, adead_memory_init, zeroMM, heq, heq2, hb, cpu_init,
              hmalloc, ho3', adead_memory_destroy, adead_arena_destroy,
              adead_pool_destroy, hfree]
        · simp [adead_init, adead_memory_init, zeroMM, heq, heq2, hb,
            adead_memory_destroy, adead_arena_destroy, adead_pool_destroy, hfree]

/-- Witness for `init_failure_unwinds`: a pool-allocation failure during
`adead_memory_init` (oracle failing the second `malloc`) and an unrecognized
backend identity (3) in `adead_init` both return errors with no live heap
allocation left behind. -/
theorem init_failure_unwinds_witness :
    ((adead_memory_init (fun i => i != 1) 1024 256 ⟨0, []⟩).1 ≠ .ok ∧
      ((adead_memory_init (fun i => i != 1) 1024 256 ⟨0, []⟩).2.2).live = [] ∧
      ((adead_memory_init (fun i => i != 1) 1024 256 ⟨0, []⟩).2.1).scratch.base = none ∧
      ((adead_memory_init (fun i => i != 1) 1024 256 ⟨0, []⟩).2.1).tensor_pool.base = none) ∧
    ((adead_init (fun _ => true) 3 ⟨0, []⟩).1 ≠ .ok ∧
      ((adead_init (fun _ => true) 3 ⟨0, []⟩).2.2).live = [] ∧
      ((adead_init (fun _ => true) 3 ⟨0, []⟩).2.1).memory.scratch.base = none ∧
      ((adead_init (fun _ => true) 3 ⟨0, []⟩).2.1).memory.tensor_pool.base = none) :=
  ⟨⟨by decide, init_failure_unwinds.1 (fun i => i != 1) 1024 256 ⟨0, []⟩ (by decide)⟩,
   ⟨by decide, init_failure_unwinds.2 (fun _ => true) 3 ⟨0, []⟩ (by decide)⟩⟩

/- ============================================================
   C7: CUDA/Vulkan requests silently remap to CPU
   ============================================================ -/

/-- C7: requesting backend identity CUDA or VULKAN is never rejected as an
invalid parameter, and whenever `adead_init` succeeds the reference (CPU)
capability table is installed: `adead_get_backend` reports
`ADEAD_BACKEND_CPU` and `adead_get_backend_name` reports `"CPU"`. -/
theorem gpu_request_remaps_to_cpu (oracle : Nat → Bool) (backend : Nat) (h : Heap)
    (hb : backend = ADEAD_BACKEND_CUDA ∨ backend = ADEAD_BACKEND_VULKAN) :
    (adead_init oracle backend h).1 ≠ .errInvalidParam ∧
    ((adead_init oracle backend h).1 = .ok →
      (adead_init oracle backend h).2.1.backend_vtable = some .cpuVtable ∧
      adead_get_backend (some (adead_init oracle backend h).2.1) = ADEAD_BACKEND_CPU ∧
      adead_get_backend_name (some (adead_init oracle backend h).2.1) = "CPU") := by
  rcases hb with hb | hb <;> subst hb <;>
  · rcases arena_init_cases oracle zeroMM.scratch (64 * 1024 * 1024) h with
      ⟨hc, heq⟩ | ⟨hc, ho, heq⟩ | ⟨hc, ho, heq⟩
    · exact absurd hc (by norm_num)
    · simp only [zeroMM] at heq
      simp [adead_init, adead_memory_init, zeroMM, heq]
    · simp only [zeroMM] at heq
      rcases pool_init_cases oracle zeroMM.tensor_pool 256 ((16 * 1024 * 1024) / 256)
          ⟨h.nextId + 1, h.nextId :: h.live⟩ with
        ⟨hc2, heq2⟩ | ⟨hc2, ho2, heq2⟩ | ⟨hc2, ho2, heq2⟩
      · exact absurd hc2 (by norm_num)
      · simp only [zeroMM] at heq2
        simp [adead_init, adead_memory_init, zeroMM, heq, heq2]
      · simp only [zeroMM] at heq2
        by_cases ho3 : oracle (h.nextId + 2)
        · simp [adead_init, adead_memory_init, zeroMM, heq, heq2, cpu_init,
            hmalloc, ho3, adead_get_backend, adead_get_backend_name, vtableName,
            ADEAD_BACKEND_CPU, ADEAD_BACKEND_AUTO, ADEAD_BACKEND_CUDA,
            ADEAD_BACKEND_VULKAN]
        · have ho3' : oracle (h.nextId + 2) = false := by simpa using ho3
          simp [adead_init, adead_memory_init, zeroMM, heq, heq2, cpu_init,
            hmalloc, ho3', adead_memory_destroy, adead_arena_destroy,
            adead_pool_destroy, hfree, ADEAD_BACKEND_CPU, ADEAD_BACKEND_AUTO,
            ADEAD_BACKEND_CUDA, ADEAD_BACKEND_VULKAN]

/-- Witness for `gpu_request_remaps_to_cpu`: a CUDA request on an
always-succeeding allocator initializes successfully with backend CPU and
name "CPU". -/
theorem gpu_request_remaps_to_cpu_witness :
    (adead_init (fun _ => true) ADEAD_BACKEND_CUDA ⟨0, []⟩).1 ≠ .errInvalidParam ∧
    ((adead_init (fun _ => true) ADEAD_BACKEND_CUDA ⟨0, []⟩).2.1.backend_vtable =
      some .cpuVtable ∧
     adead_get_backend (some (adead_init (fun _ => true) ADEAD_BACKEND_CUDA ⟨0, []⟩).2.1) =
      ADEAD_BACKEND_CPU ∧
     adead_get_backend_name
        (some (adead_init (fun _ => true) ADEAD_BACKEND_CUDA ⟨0, []⟩).2.1) = "CPU") :=
  ⟨(gpu_request_remaps_to_cpu (fun _ => true) ADEAD_BACKEND_CUDA ⟨0, []⟩ (Or.inl rfl)).1,
   (gpu_request_remaps_to_cpu (fun _ => true) ADEAD_BACKEND_CUDA ⟨0, []⟩ (Or.inl rfl)).2
     (by decide)⟩

/- ============================================================
   C5: memory manager counters
   ============================================================ -/

/-- C5: on a freshly initialized memory manager, `scratch_alloc(100)` followed
by `scratch_alloc(200)` (both succeeding) yields `total_alloc = 300` (the
requested sizes, not the aligned ones) and `alloc_count = 2`; the arena cursor
then stands at 312 (112 from aligning 100 up to 16, plus 200), and a
`scratch_reset` adds exactly that in-use amount to `total_freed` (not the
capacity), increments `free_count` to 1, and zeroes the cursor. -/
theorem memory_scratch_ok (mm : ADeadMemoryManager) (size : Nat) (p : Ptr)
    (mm' : ADeadMemoryManager)
    (hs : adead_memory_scratch mm size = (some p, mm')) :
    mm'.scratch.offset =
      (adead_align_up mm.scratch.offset ADEAD_ALIGNMENT + size) % U64MOD ∧
    mm'.total_alloc = (mm.total_alloc + size) % U64MOD ∧
    mm'.alloc_count = (mm.alloc_count + 1) % U32MOD ∧
    mm'.total_freed = mm.total_freed ∧
    mm'.free_count = mm.free_count := by
  rcases hbase : mm.scratch.base with _ | b
  · simp [adead_memory_scratch, adead_arena_alloc, hbase] at hs
  · by_cases hsz : size = 0
    · simp [adead_memory_scratch, adead_arena_alloc, hbase, hsz] at hs
    · by_cases hcap : mm.scratch.capacity <
          (adead_align_up mm.scratch.offset ADEAD_ALIGNMENT + size) % U64MOD
      · simp [adead_memory_scratch, adead_arena_alloc, hbase, hsz, hcap] at hs
      · simp only [adead_memory_scratch, adead_arena_alloc, hbase, hsz, hcap,
          if_false, if_neg, Option.some.injEq, Prod.mk.injEq] at hs
        obtain ⟨-, hmm⟩ := hs
        refine ⟨?_, ?_, ?_, ?_, ?_⟩ <;> rw [← hmm]

theorem scratch_counters (oracle : Nat → Bool) (ss ps : Nat) (h : Heap)
    (mm0 : ADeadMemoryManager) (h1 : Heap)
    (hinit : adead_memory_init oracle ss ps h = (.ok, mm0, h1))
    (p1 : Ptr) (mm1 : ADeadMemoryManager)
    (ha1 : adead_memory_scratch mm0 100 = (some p1, mm1))
    (p2 : Ptr) (mm2 : ADeadMemoryManager)
    (ha2 : adead_memory_scratch mm1 200 = (some p2, mm2)) :
    mm2.total_alloc = 300 ∧ mm2.alloc_count = 2 ∧
    mm2.scratch.offset = 312 ∧
    (adead_memory_scratch_reset mm2).total_freed = mm2.scratch.offset ∧
    (adead_memory_scratch_reset mm2).free_count = 1 ∧
    (adead_memory_scratch_reset mm2).scratch.offset = 0 := by
  rcases arena_init_cases oracle zeroMM.scratch ss h with
    ⟨hc, heq⟩ | ⟨hc, ho, heq⟩ | ⟨hc, ho, heq⟩
  · simp only [zeroMM] at heq
    simp [adead_memory_init, zeroMM, heq] at hinit
  · simp only [zeroMM] at heq
    simp [adead_memory_init, zeroMM, heq] at hinit
  · simp only [zeroMM] at heq
    rcases pool_init_cases oracle zeroMM.tensor_pool 256 (ps / 256)
        ⟨h.nextId + 1, h.nextId :: h.live⟩ with
      ⟨hc2, heq2⟩ | ⟨hc2, ho2, heq2⟩ | ⟨hc2, ho2, heq2⟩ <;> simp only [zeroMM] at heq2
    · simp [adead_memory_init, zeroMM, heq, heq2] at hinit
    · simp [adead_memory_init, zeroMM, heq, heq2] at hinit
    · simp only [adead_memory_init, zeroMM, heq, heq2, Prod.mk.injEq, true_and] at hinit
      obtain ⟨hmm0, -⟩ := hinit
      have f1 : mm0.scratch.offset = 0 := by rw [← hmm0]
      have f2 : mm0.total_alloc = 0 := by rw [← hmm0]
      have f3 : mm0.alloc_count = 0 := by rw [← hmm0]
      have f4 : mm0.total_freed = 0 := by rw [← hmm0]
      have f5 : mm0.free_count = 0 := by rw [← hmm0]
      obtain ⟨g1, g2, g3, g4, g5⟩ := memory_scratch_ok mm0 100 p1 mm1 ha1
      obtain ⟨k1, k2, k3, k4, k5⟩ := memory_scratch_ok mm1 200 p2 mm2 ha2
      have o1 : mm1.scratch.offset = 100 := by
        rw [g1, f1]
        decide
      have a2 : mm2.total_alloc = 300 := by
        rw [k2, g2, f2]
        decide
      have c2 : mm2.alloc_count = 2 := by
        rw [k3, g3, f3]
        decide
      have o2 : mm2.scratch.offset = 312 := by
        rw [k1, o1]
        decide
      have tf2 : mm2.total_freed = 0 := by rw [k4, g4, f4]
      have fc2 : mm2.free_count = 0 := by rw [k5, g5, f5]
      refine ⟨a2, c2, o2, ?_, ?_, rfl⟩
      · show (mm2.total_freed + mm2.scratch.offset) % U64MOD = mm2.scratch.offset
        rw [tf2, o2]
        decide
      · show (mm2.free_count + 1) % U32MOD = 1
        rw [fc2]
        decide

/-- Witness for `scratch_counters` on a concrete manager (1 KiB scratch,
one pool block, all allocations succeeding). -/
theorem scratch_counters_witness :
    ((adead_memory_scratch_reset
        (adead_memory_scratch
          (adead_memory_scratch
            (adead_memory_init (fun _ => true) 1024 256 ⟨0, []⟩).2.1 100).2
          200).2).total_freed =
      ((adead_memory_scratch
          (adead_memory_scratch
            (adead_memory_init (fun _ => true) 1024 256 ⟨0, []⟩).2.1 100).2
          200).2).scratch.offset) ∧
    ((adead_memory_scratch
        (adead_memory_scratch
          (adead_memory_init (fun _ => true) 1024 256 ⟨0, []⟩).2.1 100).2
        200).2).total_alloc = 300 := by
  have h := scratch_counters (fun _ => true) 1024 256 ⟨0, []⟩
    (adead_memory_init (fun _ => true) 1024 256 ⟨0, []⟩).2.1
    (adead_memory_init (fun _ => true) 1024 256 ⟨0, []⟩).2.2
    (by decide)
    (adead_memory_scratch
      (adead_memory_init (fun _ => true) 1024 256 ⟨0, []⟩).2.1 100).1.get!
    (adead_memory_scratch
      (adead_memory_init (fun _ => true) 1024 256 ⟨0, []⟩).2.1 100).2
    (by decide)
    (adead_memory_scratch
      (adead_memory_scratch
        (adead_memory_init (fun _ => true) 1024 256 ⟨0, []⟩).2.1 100).2 200).1.get!
    (adead_memory_scratch
      (adead_memory_scratch
        (adead_memory_init (fun _ => true) 1024 256 ⟨0, []⟩).2.1 100).2 200).2
    (by decide)
  exact ⟨h.2.2.2.1, h.1⟩
